import Mathlib

/-!
Verification of the TravelinBackend core engines against a shallow embedding.

The embedding covers the Booking Interval Engine
(`src/services/BookingService.js`) and the Geo Search Engine
(the POI service together with `utils/geospatial.js`).

Modelling conventions:
* Calendar dates are stored at day granularity (the service stores
  `YYYY-MM-DD` strings and compares them with the ORM's date comparison);
  a date is embedded as the numeral `year * 10000 + month * 100 + day`,
  whose numeric order coincides with the lexicographic order of the
  corresponding `YYYY-MM-DD` strings for valid calendar dates.
* `new Date(x)` parsing is embedded as an `Option Nat`: `none` plays the
  role of an `isNaN` parse result, `some d` a successfully parsed day.
* The database is a snapshot value `DB`; ORM reads (`findByPk`,
  `findAll`, `findAndCountAll`) become list lookups over the snapshot and
  writes (`create`, `destroy`) return an updated snapshot.
* Latitude/longitude values are embedded as rationals.
-/

namespace Travelin

/-- Day-granularity encoding of the calendar date `y-m-d` as
`y * 10000 + m * 100 + d` (so `2025-01-15` becomes `20250115`); on valid
dates the numeric order of codes equals the calendar order used by the
stored `YYYY-MM-DD` date comparison. -/
def dateCode (y m d : Nat) : Nat := y * 10000 + m * 100 + d

/-- Point-of-interest record with the fields the services consume:
`id, latitude, longitude, category, rank, name`. -/
structure POI where
  id : String
  latitude : Rat
  longitude : Rat
  category : String
  rank : Int
  name : String
  deriving Repr, DecidableEq

/-- Booking record: `id, userId, poiId, startDate, endDate` with the two
dates as day-granularity `dateCode` values. -/
structure Booking where
  id : Nat
  userId : Nat
  poiId : String
  startDate : Nat
  endDate : Nat
  deriving Repr, DecidableEq

/-- Database snapshot consumed by the booking service: the POI table, the
booking table (in storage order), and the next auto-increment booking id. -/
structure DB where
  pois : List POI
  bookings : List Booking
  nextId : Nat
  deriving Repr, DecidableEq

/-- The error values thrown by `BookingService`: `NotFoundError(message,
{parameter})` and `ValidationError(message, {parameter})`. -/
inductive Err where
  | notFound (message parameter : String)
  | validation (message parameter : String)
  deriving Repr, DecidableEq

deriving instance DecidableEq for Except

/-- Message of the conflict `ValidationError` built in `createBooking`
(lines 56-59): it embeds the conflicting booking's date range. -/
def conflictMessage (cs ce : Nat) : String :=
  "POI is not available for the selected dates. Conflicts with existing booking ("
    ++ toString cs ++ " to " ++ toString ce ++ ")"

/-- `PointOfInterest.findByPk(poiId)`: first stored POI with that id. -/
def findPoi (db : DB) (poiId : String) : Option POI :=
  db.pois.find? (fun p => p.id == poiId)

/-- The `whereCondition` of `checkAvailability` (BookingService.js lines
207-220) applied to one stored booking: same `poiId`, `startDate ≤`
candidate end, `endDate ≥` candidate start, and, when an
`excludeBookingId` is supplied, `id ≠ excludeBookingId`. -/
def overlapsCond (poiId : String) (startDate endDate : Nat)
    (excludeBookingId : Option Nat) (b : Booking) : Bool :=
  b.poiId == poiId && decide (b.startDate ≤ endDate) && decide (b.endDate ≥ startDate) &&
    (match excludeBookingId with
     | some x => b.id != x
     | none => true)

/-- Conflict payload `{id, startDate, endDate}` reported by
`checkAvailability`. -/
structure Conflict where
  id : Nat
  startDate : Nat
  endDate : Nat
  deriving Repr, DecidableEq

/-- Result shape of `checkAvailability`: `{available, conflict?}`. -/
structure Availability where
  available : Bool
  conflict : Option Conflict
  deriving Repr, DecidableEq

/-- `BookingService.checkAvailability(poiId, startDate, endDate,
excludeBookingId)` (lines 182-242): verify the POI exists, reject
unparseable dates, reject `end ≤ start`, then look for the first stored
booking satisfying `overlapsCond` (the `findAll` with `limit: 1`);
report it as the conflict, or report available. The operation reads the
snapshot and returns no new state (no writes). -/
def checkAvailability (db : DB) (poiId : String) (startDate endDate : Option Nat)
    (excludeBookingId : Option Nat) : Except Err Availability :=
  match findPoi db poiId with
  | none => .error (.notFound "Point of Interest not found" "poiId")
  | some _ =>
    match startDate, endDate with
    | some s, some e =>
      if e ≤ s then
        .error (.validation "End date must be after start date" "endDate")
      else
        match db.bookings.find? (overlapsCond poiId s e excludeBookingId) with
        | some b => .ok ⟨false, some ⟨b.id, b.startDate, b.endDate⟩⟩
        | none => .ok ⟨true, none⟩
    | _, _ => .error (.validation "Invalid date format. Use YYYY-MM-DD" "startDate, endDate")

/-- `BookingService.createBooking(userId, poiId, startDate, endDate)`
(lines 18-84): verify the POI exists; reject unparseable dates, reject
`end ≤ start`, reject `start < today`; run `checkAvailability`; when
unavailable throw the conflict `ValidationError` whose message carries
the conflicting range; otherwise persist the new booking (the
auto-increment id is modelled by `nextId`). -/
def createBooking (db : DB) (today : Nat) (userId : Nat) (poiId : String)
    (startDate endDate : Option Nat) : Except Err (DB × Booking) :=
  match findPoi db poiId with
  | none => .error (.notFound "Point of Interest not found" "poiId")
  | some _ =>
    match startDate, endDate with
    | some s, some e =>
      if e ≤ s then
        .error (.validation "End date must be after start date" "endDate")
      else if s < today then
        .error (.validation "Start date cannot be in the past" "startDate")
      else
        match checkAvailability db poiId (some s) (some e) none with
        | .error err => .error err
        | .ok avail =>
          if avail.available then
            let b : Booking := ⟨db.nextId, userId, poiId, s, e⟩
            .ok ({ db with bookings := db.bookings ++ [b], nextId := db.nextId + 1 }, b)
          else
            match avail.conflict with
            | some c =>
              .error (.validation (conflictMessage c.startDate c.endDate) "startDate, endDate")
            | none =>
              .error (.validation
                "POI is not available for the selected dates. Date range overlaps with existing booking"
                "startDate, endDate")
    | _, _ => .error (.validation "Invalid date format. Use YYYY-MM-DD" "startDate, endDate")

/-- `BookingService.getBookingById(bookingId, userId)` (lines 121-146):
`findByPk` with a required POI join (a booking whose POI row is missing
is reported as not found), then the ownership check; a booking owned by
another user is reported with the identical `NotFoundError`. -/
def getBookingById (db : DB) (bookingId userId : Nat) : Except Err Booking :=
  match db.bookings.find? (fun b => b.id == bookingId && (findPoi db b.poiId).isSome) with
  | none => .error (.notFound "Booking not found" "bookingId")
  | some b =>
    if b.userId != userId then .error (.notFound "Booking not found" "bookingId")
    else .ok b

/-- `BookingService.cancelBooking(bookingId, userId)` (lines 154-172):
`findByPk`, the same not-found / ownership checks as retrieval, then
`destroy` (remove the found record from the snapshot). -/
def cancelBooking (db : DB) (bookingId userId : Nat) : Except Err (DB × Bool) :=
  match db.bookings.find? (fun b => b.id == bookingId) with
  | none => .error (.notFound "Booking not found" "bookingId")
  | some b =>
    if b.userId != userId then .error (.notFound "Booking not found" "bookingId")
    else .ok ({ db with bookings := db.bookings.eraseP (fun x => x.id == b.id) }, true)

/-- Sample POI used in the concrete scenarios. -/
def demoPoi : POI := ⟨"poi", 41, 2, "SIGHTS", 5, "Sagrada"⟩

/-- Sample snapshot: one POI and one existing booking
`[2025-01-10, 2025-01-15]` owned by user `1`. -/
def demoDb : DB :=
  ⟨[demoPoi], [⟨7, 1, "poi", dateCode 2025 1 10, dateCode 2025 1 15⟩], 8⟩

/-- C1: booking conflict detection uses the closed-interval rule: a stored
booking conflicts with the candidate interval iff it is for the same POI
and `existingStart ≤ candidateEnd ∧ existingEnd ≥ candidateStart`, at day
granularity; the existing booking `[2025-01-10, 2025-01-15]` conflicts
with the candidate `[2025-01-15, 2025-01-20]` (shared boundary day) but
not with `[2025-01-16, 2025-01-20]`, as `checkAvailability` reports. -/
theorem closed_interval_conflict_rule :
    (∀ (b : Booking) (poiId : String) (s e : Nat),
        overlapsCond poiId s e none b = true ↔
          (b.poiId = poiId ∧ b.startDate ≤ e ∧ b.endDate ≥ s))
    ∧ overlapsCond "poi" (dateCode 2025 1 15) (dateCode 2025 1 20) none
        ⟨7, 1, "poi", dateCode 2025 1 10, dateCode 2025 1 15⟩ = true
    ∧ overlapsCond "poi" (dateCode 2025 1 16) (dateCode 2025 1 20) none
        ⟨7, 1, "poi", dateCode 2025 1 10, dateCode 2025 1 15⟩ = false
    ∧ checkAvailability demoDb "poi" (some (dateCode 2025 1 15)) (some (dateCode 2025 1 20)) none
        = .ok ⟨false, some ⟨7, dateCode 2025 1 10, dateCode 2025 1 15⟩⟩
    ∧ checkAvailability demoDb "poi" (some (dateCode 2025 1 16)) (some (dateCode 2025 1 20)) none
        = .ok ⟨true, none⟩ := by
  refine ⟨?_, by decide, by decide, rfl, rfl⟩
  intro b poiId s e
  simp [overlapsCond, and_assoc]

/-- Computation helper: `checkAvailability` on a missing POI. -/
lemma checkAvailability_poi_missing (db : DB) (poiId : String) (sd ed ex : Option Nat)
    (h : findPoi db poiId = none) :
    checkAvailability db poiId sd ed ex
      = .error (.notFound "Point of Interest not found" "poiId") := by
  simp [checkAvailability, h]

/-- Computation helper: `checkAvailability` on an existing POI and a valid
range reduces to the `find?` over the stored bookings. -/
lemma checkAvailability_eval (db : DB) (poiId : String) (s e : Nat) (ex : Option Nat) (p : POI)
    (hp : findPoi db poiId = some p) (hns : ¬ e ≤ s) :
    checkAvailability db poiId (some s) (some e) ex
      = match db.bookings.find? (overlapsCond poiId s e ex) with
        | some b => .ok ⟨false, some ⟨b.id, b.startDate, b.endDate⟩⟩
        | none => .ok ⟨true, none⟩ := by
  simp [checkAvailability, hp, hns]

/-- C7: `checkAvailability` fails with the resource-not-found error when the
POI does not exist (never silently available); otherwise, for a valid
candidate range, it answers `{available: true}` iff no stored booking for
that POI (other than the excluded one) satisfies the conflict condition;
when some stored booking does conflict, the operation returns
`{available: false, conflict: {id, startDate, endDate}}` of a conflicting
stored booking; and conversely any `{available: false, conflict}` answer
reports the id and range of an actual conflicting stored booking; the
operation returns no updated snapshot (it performs no writes). -/
theorem checkAvailability_contract :
    (∀ (db : DB) (poiId : String) (sd ed ex : Option Nat),
        findPoi db poiId = none →
        checkAvailability db poiId sd ed ex
          = .error (.notFound "Point of Interest not found" "poiId"))
    ∧ (∀ (db : DB) (poiId : String) (s e : Nat) (ex : Option Nat) (p : POI),
        findPoi db poiId = some p → s < e →
        ((checkAvailability db poiId (some s) (some e) ex = .ok ⟨true, none⟩ ↔
            ∀ b ∈ db.bookings, overlapsCond poiId s e ex b = false)
         ∧ ((∃ b ∈ db.bookings, overlapsCond poiId s e ex b = true) →
             ∃ b ∈ db.bookings, overlapsCond poiId s e ex b = true ∧
               checkAvailability db poiId (some s) (some e) ex
                 = .ok ⟨false, some ⟨b.id, b.startDate, b.endDate⟩⟩)
         ∧ ∀ (c : Conflict),
             checkAvailability db poiId (some s) (some e) ex = .ok ⟨false, some c⟩ →
             ∃ b ∈ db.bookings, overlapsCond poiId s e ex b = true ∧
               b.id = c.id ∧ b.startDate = c.startDate ∧ b.endDate = c.endDate)) := by
  constructor
  · exact fun db poiId sd ed ex h => checkAvailability_poi_missing db poiId sd ed ex h
  · intro db poiId s e ex p hp hse
    have hns : ¬ e ≤ s := not_le.mpr hse
    have heval := checkAvailability_eval db poiId s e ex p hp hns
    refine ⟨?_, ?_, ?_⟩
    · cases hfind : db.bookings.find? (overlapsCond poiId s e ex) with
      | none =>
        rw [hfind] at heval
        constructor
        · intro _ b hb
          have := List.find?_eq_none.mp hfind b hb
          simpa using this
        · intro _
          exact heval
      | some b =>
        rw [hfind] at heval
        constructor
        · intro hok
          rw [heval] at hok
          simp at hok
        · intro hall
          have hb := List.find?_some hfind
          rw [hall b (List.mem_of_find?_eq_some hfind)] at hb
          cases hb
    · rintro ⟨b0, hb0mem, hb0⟩
      cases hfind : db.bookings.find? (overlapsCond poiId s e ex) with
      | none =>
        have := List.find?_eq_none.mp hfind b0 hb0mem
        rw [hb0] at this
        cases this rfl
      | some b =>
        rw [hfind] at heval
        exact ⟨b, List.mem_of_find?_eq_some hfind, List.find?_some hfind, heval⟩
    · intro c hc
      cases hfind : db.bookings.find? (overlapsCond poiId s e ex) with
      | none =>
        rw [hfind] at heval
        rw [heval] at hc
        simp at hc
      | some b =>
        rw [hfind] at heval
        rw [heval] at hc
        simp only [Except.ok.injEq, Availability.mk.injEq, Option.some.injEq] at hc
        obtain ⟨-, hcc⟩ := hc
        refine ⟨b, List.mem_of_find?_eq_some hfind, List.find?_some hfind, ?_, ?_, ?_⟩ <;>
          rw [← hcc]

/-- C7 witness: on the sample snapshot (existing booking
`[2025-01-10, 2025-01-15]`), the candidate `[2025-03-06, 2025-03-10]` is
available, while the boundary-sharing candidate `[2025-01-15, 2025-01-20]`
makes the operation return `{available: false}` with the stored booking's
id and range as the conflict — both by the contract applied at concrete
inputs. -/
theorem checkAvailability_contract_witness :
    (checkAvailability demoDb "poi" (some (dateCode 2025 3 6)) (some (dateCode 2025 3 10)) none
      = .ok ⟨true, none⟩)
    ∧ ∃ b ∈ demoDb.bookings,
        overlapsCond "poi" (dateCode 2025 1 15) (dateCode 2025 1 20) none b = true ∧
        checkAvailability demoDb "poi" (some (dateCode 2025 1 15)) (some (dateCode 2025 1 20)) none
          = .ok ⟨false, some ⟨b.id, b.startDate, b.endDate⟩⟩ :=
  ⟨((checkAvailability_contract.2 demoDb "poi" (dateCode 2025 3 6) (dateCode 2025 3 10)
      none demoPoi rfl (by decide)).1).mpr (by decide),
   (checkAvailability_contract.2 demoDb "poi" (dateCode 2025 1 15) (dateCode 2025 1 20)
      none demoPoi rfl (by decide)).2.1
     ⟨⟨7, 1, "poi", dateCode 2025 1 10, dateCode 2025 1 15⟩, by decide, by decide⟩⟩

/-- C9: a booking that does not exist and a booking owned by a different
user produce the identical `NotFoundError('Booking not found',
parameter 'bookingId')` from both retrieval and cancellation, so the
caller cannot distinguish the two cases. -/
theorem ownership_hidden_as_not_found :
    ∀ (db : DB) (bookingId userId : Nat),
      (∀ b ∈ db.bookings, b.id = bookingId → b.userId ≠ userId) →
      getBookingById db bookingId userId = .error (.notFound "Booking not found" "bookingId")
      ∧ cancelBooking db bookingId userId
          = .error (.notFound "Booking not found" "bookingId") := by
  intro db bookingId userId h
  constructor
  · unfold getBookingById
    cases hfind : db.bookings.find? (fun b => b.id == bookingId && (findPoi db b.poiId).isSome) with
    | none => rfl
    | some b =>
      have hb := List.find?_some hfind
      simp only [Bool.and_eq_true, beq_iff_eq] at hb
      have hne := h b (List.mem_of_find?_eq_some hfind) hb.1
      simp [hne]
  · unfold cancelBooking
    cases hfind : db.bookings.find? (fun b => b.id == bookingId) with
    | none => rfl
    | some b =>
      have hb := List.find?_some hfind
      simp only [beq_iff_eq] at hb
      have hne := h b (List.mem_of_find?_eq_some hfind) hb
      simp [hne]

/-- C9 witness: on the sample snapshot, booking `7` exists and is owned by
user `1`; user `2` gets the same not-found outcome from retrieval and
cancellation, and so does a lookup of the nonexistent booking `99`. -/
theorem ownership_hidden_as_not_found_witness :
    (getBookingById demoDb 7 2 = .error (.notFound "Booking not found" "bookingId")
      ∧ cancelBooking demoDb 7 2 = .error (.notFound "Booking not found" "bookingId"))
    ∧ (getBookingById demoDb 99 2 = .error (.notFound "Booking not found" "bookingId")
      ∧ cancelBooking demoDb 99 2 = .error (.notFound "Booking not found" "bookingId")) :=
  ⟨ownership_hidden_as_not_found demoDb 7 2 (by decide),
   ownership_hidden_as_not_found demoDb 99 2 (by decide)⟩

/-- C10: when the POI does not exist, both `createBooking` and
`checkAvailability` fail with the resource-not-found error whatever the
supplied dates are — including unparseable (`none`) or inverted ranges —
because POI existence is checked before any date parsing or range
validation. -/
theorem poi_checked_before_dates :
    ∀ (db : DB) (today userId : Nat) (poiId : String) (sd ed ex : Option Nat),
      findPoi db poiId = none →
      createBooking db today userId poiId sd ed
        = .error (.notFound "Point of Interest not found" "poiId")
      ∧ checkAvailability db poiId sd ed ex
        = .error (.notFound "Point of Interest not found" "poiId") := by
  intro db today userId poiId sd ed ex h
  exact ⟨by simp [createBooking, h], checkAvailability_poi_missing db poiId sd ed ex h⟩

/-- C10 witness: on the empty snapshot, a nonexistent POI combined with an
inverted date range (`2025-01-20 .. 2025-01-10`) still reports the
not-found error from both operations. -/
theorem poi_checked_before_dates_witness :
    createBooking ⟨[], [], 1⟩ 20250101 1 "ghost"
        (some (dateCode 2025 1 20)) (some (dateCode 2025 1 10))
      = .error (.notFound "Point of Interest not found" "poiId")
    ∧ checkAvailability ⟨[], [], 1⟩ "ghost"
        (some (dateCode 2025 1 20)) (some (dateCode 2025 1 10)) none
      = .error (.notFound "Point of Interest not found" "poiId") :=
  poi_checked_before_dates ⟨[], [], 1⟩ 20250101 1 "ghost"
    (some (dateCode 2025 1 20)) (some (dateCode 2025 1 10)) none rfl

/-- Interval overlap in the sense of the system invariant (spec §3/§4.2):
half-open semantics, so touching endpoints do not overlap. -/
def intervalsOverlap (s1 e1 s2 e2 : Nat) : Prop := s1 < e2 ∧ s2 < e1

instance (s1 e1 s2 e2 : Nat) : Decidable (intervalsOverlap s1 e1 s2 e2) :=
  inferInstanceAs (Decidable (s1 < e2 ∧ s2 < e1))

/-- Two bookings for the same POI must not have overlapping intervals. -/
def noOverlapPair (b1 b2 : Booking) : Prop :=
  b1.poiId = b2.poiId →
    ¬ intervalsOverlap b1.startDate b1.endDate b2.startDate b2.endDate

instance (b1 b2 : Booking) : Decidable (noOverlapPair b1 b2) :=
  if h : b1.poiId = b2.poiId then
    if h2 : intervalsOverlap b1.startDate b1.endDate b2.startDate b2.endDate then
      isFalse (fun hc => hc h h2)
    else isTrue (fun _ => h2)
  else isTrue (fun hp => absurd hp h)

/-- The system invariant: for a fixed `poiId`, no two live bookings have
overlapping intervals. -/
def bookingInvariant (db : DB) : Prop := db.bookings.Pairwise noOverlapPair

instance (db : DB) : Decidable (bookingInvariant db) :=
  inferInstanceAs (Decidable (db.bookings.Pairwise noOverlapPair))

/-- C2: a successful `createBooking` preserves the per-POI no-overlap
invariant (it runs `checkAvailability` first), and when the candidate
interval conflicts with a stored booking for that POI — under otherwise
valid inputs — it fails with the conflict `ValidationError` carrying the
conflicting range, persisting nothing (an `error` result carries no
updated snapshot). -/
theorem createBooking_preserves_invariant :
    (∀ (db : DB) (today userId : Nat) (poiId : String) (sd ed : Option Nat)
        (db2 : DB) (b : Booking),
        bookingInvariant db →
        createBooking db today userId poiId sd ed = .ok (db2, b) →
        bookingInvariant db2)
    ∧ (∀ (db : DB) (today userId : Nat) (poiId : String) (s e : Nat) (p : POI) (b : Booking),
        findPoi db poiId = some p → s < e → today ≤ s →
        db.bookings.find? (overlapsCond poiId s e none) = some b →
        createBooking db today userId poiId (some s) (some e)
          = .error (.validation (conflictMessage b.startDate b.endDate)
              "startDate, endDate")) := by
  constructor
  · intro db today userId poiId sd ed db2 b hinv hok
    cases hp : findPoi db poiId with
    | none => simp [createBooking, hp] at hok
    | some p =>
      cases sd with
      | none => simp [createBooking, hp] at hok
      | some s =>
        cases ed with
        | none => simp [createBooking, hp] at hok
        | some e =>
          by_cases hes : e ≤ s
          · simp [createBooking, hp, hes] at hok
          · by_cases hst : s < today
            · simp [createBooking, hp, hes, hst] at hok
            · have heval := checkAvailability_eval db poiId s e none p hp hes
              cases hfind : db.bookings.find? (overlapsCond poiId s e none) with
              | some c =>
                rw [hfind] at heval
                simp [createBooking, hp, hes, hst, heval] at hok
              | none =>
                rw [hfind] at heval
                simp [createBooking, hp, hes, hst, heval] at hok
                obtain ⟨hdb2, -⟩ := hok
                rw [← hdb2]
                unfold bookingInvariant
                simp only []
                apply List.pairwise_append.mpr
                refine ⟨hinv, List.pairwise_singleton _ _, ?_⟩
                intro a ha b' hb'
                simp only [List.mem_singleton] at hb'
                subst hb'
                intro hpoi hov
                have hfalse := List.find?_eq_none.mp hfind a ha
                apply hfalse
                simp only [overlapsCond, Bool.and_eq_true, beq_iff_eq, decide_eq_true_eq,
                  ge_iff_le]
                exact ⟨⟨⟨hpoi, le_of_lt hov.1⟩, le_of_lt hov.2⟩, trivial⟩
  · intro db today userId poiId s e p b hp hse hts hfind
    have hns : ¬ e ≤ s := not_le.mpr hse
    have hnt : ¬ s < today := not_lt.mpr hts
    have heval := checkAvailability_eval db poiId s e none p hp hns
    rw [hfind] at heval
    simp [createBooking, hp, hns, hnt, heval]

/-- C2 witness: booking `[2025-01-16, 2025-01-20]` succeeds on the sample
snapshot and the resulting snapshot still satisfies the invariant; the
overlapping candidate `[2025-01-12, 2025-01-20]` fails with the conflict
error carrying the stored range `[2025-01-10, 2025-01-15]`. -/
theorem createBooking_preserves_invariant_witness :
    bookingInvariant
      ⟨[demoPoi],
        [⟨7, 1, "poi", dateCode 2025 1 10, dateCode 2025 1 15⟩,
         ⟨8, 2, "poi", dateCode 2025 1 16, dateCode 2025 1 20⟩], 9⟩
    ∧ createBooking demoDb 20250101 2 "poi"
        (some (dateCode 2025 1 12)) (some (dateCode 2025 1 20))
      = .error (.validation (conflictMessage (dateCode 2025 1 10) (dateCode 2025 1 15))
          "startDate, endDate") :=
  ⟨createBooking_preserves_invariant.1 demoDb 20250101 2 "poi"
      (some (dateCode 2025 1 16)) (some (dateCode 2025 1 20)) _
      ⟨8, 2, "poi", dateCode 2025 1 16, dateCode 2025 1 20⟩ (by decide) rfl,
   createBooking_preserves_invariant.2 demoDb 20250101 2 "poi"
      (dateCode 2025 1 12) (dateCode 2025 1 20) demoPoi
      ⟨7, 1, "poi", dateCode 2025 1 10, dateCode 2025 1 15⟩
      rfl (by decide) (by decide) rfl⟩

/-- The availability-check step of `createBooking`: the result of the
awaited `checkAvailability` read against the current snapshot. In the
source this read and the subsequent `Booking.create` write are separate
awaited operations with no transaction, lock, or database uniqueness
constraint between them, so under the event-loop semantics another
request's steps may run in between. -/
def availablePhase (db : DB) (poiId : String) (s e : Nat) : Bool :=
  match checkAvailability db poiId (some s) (some e) none with
  | .ok a => a.available
  | .error _ => false

/-- The insert step of `createBooking`: the `Booking.create` write applied
to the snapshot current at write time. -/
def insertPhase (db : DB) (userId : Nat) (poiId : String) (s e : Nat) : DB :=
  { db with
    bookings := db.bookings ++ [⟨db.nextId, userId, poiId, s, e⟩]
    nextId := db.nextId + 1 }

/-- A successful sequential `createBooking` is exactly the check step
followed by the insert step. -/
lemma createBooking_phases (db : DB) (today userId : Nat) (poiId : String)
    (s e : Nat) (p : POI) (hp : findPoi db poiId = some p)
    (hns : ¬ e ≤ s) (hnt : ¬ s < today)
    (hav : availablePhase db poiId s e = true) :
    createBooking db today userId poiId (some s) (some e)
      = .ok (insertPhase db userId poiId s e, ⟨db.nextId, userId, poiId, s, e⟩) := by
  unfold availablePhase at hav
  cases hfind : db.bookings.find? (overlapsCond poiId s e none) with
  | some c =>
    have heval := checkAvailability_eval db poiId s e none p hp hns
    rw [hfind] at heval
    rw [heval] at hav
    simp at hav
  | none =>
    have heval := checkAvailability_eval db poiId s e none p hp hns
    rw [hfind] at heval
    simp [createBooking, hp, hns, hnt, heval, insertPhase]

/-- Snapshot for the interleaving scenario: one POI, no bookings. -/
def raceDb : DB := ⟨[demoPoi], [], 1⟩

/-- C8: the check-then-insert sequence is not serialized per POI. Under the
interleaving check⟨A⟩, check⟨B⟩, insert⟨A⟩, insert⟨B⟩ of two concurrent
`createBooking` calls for the same POI with overlapping intervals, both
availability checks read the initial snapshot and pass, both inserts
persist, and the resulting snapshot violates the per-POI no-overlap
invariant — the claim that exactly one invocation succeeds fails on this
interleaving (there is no lock, transaction, or unique constraint to
prevent it). -/
theorem concurrent_createBooking_race :
    availablePhase raceDb "poi" (dateCode 2025 1 10) (dateCode 2025 1 15) = true
    ∧ availablePhase raceDb "poi" (dateCode 2025 1 12) (dateCode 2025 1 20) = true
    ∧ createBooking raceDb (dateCode 2025 1 1) 1 "poi"
        (some (dateCode 2025 1 10)) (some (dateCode 2025 1 15))
      = .ok (insertPhase raceDb 1 "poi" (dateCode 2025 1 10) (dateCode 2025 1 15),
          ⟨1, 1, "poi", dateCode 2025 1 10, dateCode 2025 1 15⟩)
    ∧ ¬ bookingInvariant
        (insertPhase (insertPhase raceDb 1 "poi" (dateCode 2025 1 10) (dateCode 2025 1 15))
          2 "poi" (dateCode 2025 1 12) (dateCode 2025 1 20)) := by
  refine ⟨rfl, rfl, rfl, ?_⟩
  decide

/-- Coordinate validation (`utils/geospatial.js` `isValidCoordinate`):
latitude within `[-90, 90]`, longitude within `[-180, 180]` (the
number-type and NaN guards have no counterpart for rationals). -/
def isValidCoordinate (lat lon : Rat) : Bool :=
  decide (-90 ≤ lat) && decide (lat ≤ 90) && decide (-180 ≤ lon) && decide (lon ≤ 180)

/-- Bounding box `{north, south, east, west}` as produced by
`getBoundingBox` (whose trigonometric float computation stays abstract:
the searches below take the box as an input). -/
structure BBox where
  north : Rat
  south : Rat
  east : Rat
  west : Rat
  deriving Repr, DecidableEq

/-- Longitude part of the stored bounding-box condition (POI service
`findByRadius`/`findByBoundingBox`): `between [west, east]` when
`west ≤ east`, otherwise — the box crosses the date line — the union
`longitude ≥ west OR longitude ≤ east`. -/
def lonCond (west east lon : Rat) : Bool :=
  if west ≤ east then decide (west ≤ lon) && decide (lon ≤ east)
  else decide (lon ≥ west) || decide (lon ≤ east)

/-- Optional category filter: `category IN categories` when a non-empty
category list is supplied. -/
def catCond (categories : Option (List String)) (p : POI) : Bool :=
  match categories with
  | some cs => if cs.isEmpty then true else cs.contains p.category
  | none => true

/-- The stored `whereConditions` of the searches: latitude between
`[south, north]`, the longitude condition, and the category filter. -/
def boxCond (bbox : BBox) (categories : Option (List String)) (p : POI) : Bool :=
  decide (bbox.south ≤ p.latitude) && decide (p.latitude ≤ bbox.north)
    && lonCond bbox.west bbox.east p.longitude && catCond categories p

/-- Lexicographic comparison of character lists: the day-to-day meaning of
`localeCompare`-ascending on names and of the database `name ASC`
collation. -/
def charListLe : List Char → List Char → Bool
  | [], _ => true
  | _ :: _, [] => false
  | a :: as, b :: bs =>
    if a < b then true
    else if b < a then false
    else charListLe as bs

/-- Lexicographic string comparison over the underlying characters. -/
def nameLe (a b : String) : Bool := charListLe a.data b.data

/-- The `(rank ASC, name ASC)` order used both by the stored query ordering
and by the in-memory comparator of `findByRadius` (`rank` difference
first, name comparison as the tie-break — the comparator never reads the
distance). -/
def rankNameLe (a b : POI) : Prop :=
  a.rank < b.rank ∨ (a.rank = b.rank ∧ nameLe a.name b.name = true)

instance : DecidableRel rankNameLe := fun a b =>
  inferInstanceAs (Decidable (a.rank < b.rank ∨ (a.rank = b.rank ∧ nameLe a.name b.name = true)))

/-- The same order on `(poi, distance)` items. -/
def pairRel (a b : POI × Rat) : Prop := rankNameLe a.1 b.1

instance : DecidableRel pairRel := fun a b =>
  inferInstanceAs (Decidable (rankNameLe a.1 b.1))

lemma charListLe_total : ∀ xs ys : List Char, charListLe xs ys || charListLe ys xs := by
  intro xs
  induction xs with
  | nil => intro ys; simp [charListLe]
  | cons x xs ih =>
    intro ys
    cases ys with
    | nil => simp [charListLe]
    | cons y ys =>
      by_cases h1 : x < y
      · simp [charListLe, h1]
      · by_cases h2 : y < x
        · simp [charListLe, h1, h2]
        · have hx : ¬ y < x := h2
          simp only [charListLe, if_neg h1, if_neg h2, Bool.or_eq_true]
          have := ih ys
          simpa using this

lemma charListLe_trans :
    ∀ xs ys zs : List Char, charListLe xs ys → charListLe ys zs → charListLe xs zs := by
  intro xs
  induction xs with
  | nil => intro ys zs _ _; rfl
  | cons x xs ih =>
    intro ys zs hxy hyz
    cases ys with
    | nil => simp [charListLe] at hxy
    | cons y ys =>
      cases zs with
      | nil => simp [charListLe] at hyz
      | cons z zs =>
        by_cases h1 : x < y
        · by_cases h2 : y < z
          · simp [charListLe, lt_trans h1 h2]
          · by_cases h3 : z < y
            · simp [charListLe, if_neg h2, h3] at hyz
            · have hyz_eq : y = z := le_antisymm (not_lt.mp h3) (not_lt.mp h2)
              subst hyz_eq
              simp [charListLe, h1]
        · by_cases h1' : y < x
          · simp [charListLe, if_neg h1, h1'] at hxy
          · have hxy_eq : x = y := le_antisymm (not_lt.mp h1') (not_lt.mp h1)
            subst hxy_eq
            simp only [charListLe, if_neg h1, if_neg h1'] at hxy
            by_cases h2 : x < z
            · simp [charListLe, h2]
            · by_cases h3 : z < x
              · simp [charListLe, if_neg h2, h3] at hyz
              · simp only [charListLe, if_neg h2, if_neg h3] at hyz ⊢
                exact ih ys zs hxy hyz

instance : IsTotal POI rankNameLe where
  total a b := by
    unfold rankNameLe
    rcases lt_trichotomy a.rank b.rank with h | h | h
    · exact Or.inl (Or.inl h)
    · have := charListLe_total a.name.data b.name.data
      rcases Bool.or_eq_true _ _ |>.mp this with hn | hn
      · exact Or.inl (Or.inr ⟨h, hn⟩)
      · exact Or.inr (Or.inr ⟨h.symm, hn⟩)
    · exact Or.inr (Or.inl h)

instance : IsTrans POI rankNameLe where
  trans a b c hab hbc := by
    unfold rankNameLe at hab hbc ⊢
    rcases hab with h1 | ⟨h1, h1n⟩
    · rcases hbc with h2 | ⟨h2, -⟩
      · exact Or.inl (h1.trans h2)
      · exact Or.inl (h2 ▸ h1)
    · rcases hbc with h2 | ⟨h2, h2n⟩
      · exact Or.inl (lt_of_eq_of_lt h1 h2)
      · exact Or.inr ⟨h1.trans h2, charListLe_trans _ _ _ h1n h2n⟩

instance : IsTotal (POI × Rat) pairRel where
  total a b := IsTotal.total a.1 b.1

instance : IsTrans (POI × Rat) pairRel where
  trans a b c hab hbc := IsTrans.trans a.1 b.1 c.1 hab hbc

/-- Result shape `{rows, count}` of the searches. -/
structure SearchResult where
  rows : List POI
  count : Nat
  deriving Repr, DecidableEq

/-- The pre-pagination survivors of `findByRadius`: POIs matching the
stored bounding-box and category conditions (returned by the database in
`(rank, name)` order, modelled by the stable `insertionSort`), paired
with their distance (the Haversine float computation stays abstract as
`dist`), filtered by `distance ≤ radius`, then re-sorted by the
`(rank, name)` comparator (the stable in-memory `Array.sort`). -/
def radiusSurvivors (store : List POI) (bbox : BBox) (dist : POI → Rat) (radius : Rat)
    (categories : Option (List String)) : List (POI × Rat) :=
  List.insertionSort pairRel
    (((List.insertionSort rankNameLe (store.filter (boxCond bbox categories))).map
        (fun p => (p, dist p))).filter
      (fun it => decide (it.2 ≤ radius)))

/-- `findByRadius` (POI service lines 296-388): validate the center and
radius, filter by the bounding box, refine by distance, sort, then
paginate: `count` is the pre-pagination size and `rows` the
`[offset, offset+limit)` slice. -/
def findByRadius (store : List POI) (latitude longitude : Rat) (bbox : BBox)
    (dist : POI → Rat) (radius : Rat) (categories : Option (List String))
    (limit offset : Nat) : Except String SearchResult :=
  if !(isValidCoordinate latitude longitude) then
    .error "Invalid coordinates"
  else if decide (radius < 0) || decide (radius > 20) then
    .error "Radius must be between 0 and 20 kilometers"
  else
    .ok ⟨(((radiusSurvivors store bbox dist radius categories).drop offset).take limit).map
          Prod.fst,
        (radiusSurvivors store bbox dist radius categories).length⟩

/-- Matching rows of `findByBoundingBox`, in stored `(rank, name)` order. -/
def boxSorted (store : List POI) (north south east west : Rat)
    (categories : Option (List String)) : List POI :=
  List.insertionSort rankNameLe (store.filter (boxCond ⟨north, south, east, west⟩ categories))

/-- `findByBoundingBox` (POI service lines 402-472): validate the bounds,
then `findAndCountAll` with the stored condition, `(rank, name)` order
and `limit`/`offset` pagination; `count` counts all matches. -/
def findByBoundingBox (store : List POI) (north south east west : Rat)
    (categories : Option (List String)) (limit offset : Nat) : Except String SearchResult :=
  if !(isValidCoordinate north 0 && isValidCoordinate south 0
      && isValidCoordinate 0 east && isValidCoordinate 0 west) then
    .error "Invalid bounding box coordinates"
  else if north ≤ south then
    .error "North boundary must be greater than south boundary"
  else
    .ok ⟨((boxSorted store north south east west categories).drop offset).take limit,
        (boxSorted store north south east west categories).length⟩

/-- Substring test on character lists (the `LIKE '%…%'` match). -/
def hasSubChars (needle : List Char) : List Char → Bool
  | [] => needle.isEmpty
  | c :: rest => needle.isPrefixOf (c :: rest) || hasSubChars needle rest

/-- The name condition of `findByName`: the trimmed search string occurs
as a substring of the POI name. -/
def likeCond (q : String) (p : POI) : Bool := hasSubChars q.trim.toList p.name.toList

/-- Matching rows of `findByName`, in stored `(rank, name)` order. -/
def nameSorted (store : List POI) (q : String)
    (categories : Option (List String)) : List POI :=
  List.insertionSort rankNameLe (store.filter (fun p => likeCond q p && catCond categories p))

/-- `findByName` (POI service lines 539-584): reject an empty (trimmed)
search string, then `findAndCountAll` with the name condition, category
filter, `(rank, name)` order, and `limit`/`offset` pagination. -/
def findByName (store : List POI) (q : String) (categories : Option (List String))
    (limit offset : Nat) : Except String SearchResult :=
  if q.trim == "" then .error "Name search string is required"
  else
    .ok ⟨((nameSorted store q categories).drop offset).take limit,
        (nameSorted store q categories).length⟩

/-- C4 counterexample: the claim says a box with `east == west` is treated
as a full longitude wrap, but the stored condition takes the
`west ≤ east` branch and `between [west, east]` then matches only the
single longitude equal to the shared bound: longitude `10` does not
match the box with `west = east = 0`. -/
theorem lonCond_eq_bounds_not_full_wrap : lonCond 0 0 10 = false := by decide

/-- C4 (amended): the stored longitude condition matches
`west ≤ longitude ≤ east` when `west < east`, and the union
`longitude ≥ west ∨ longitude ≤ east` when `west > east` (so the box
`west = 170, east = -170` matches longitudes `179` and `-179` but not
`0`); when `east == west` the `between` branch applies and only the
single longitude equal to that shared bound matches (a zero-width slice,
not a full wrap). -/
theorem lonCond_characterization :
    (∀ w e lon : Rat, w < e → (lonCond w e lon = true ↔ (w ≤ lon ∧ lon ≤ e)))
    ∧ (∀ w e lon : Rat, e < w → (lonCond w e lon = true ↔ (w ≤ lon ∨ lon ≤ e)))
    ∧ lonCond 170 (-170) 179 = true
    ∧ lonCond 170 (-170) (-179) = true
    ∧ lonCond 170 (-170) 0 = false
    ∧ (∀ w lon : Rat, lonCond w w lon = true ↔ lon = w) := by
  refine ⟨?_, ?_, by decide, by decide, by decide, ?_⟩
  · intro w e lon h
    simp [lonCond, le_of_lt h]
  · intro w e lon h
    simp [lonCond, not_le.mpr h, ge_iff_le]
  · intro w lon
    simp only [lonCond, if_pos (le_refl w), Bool.and_eq_true, decide_eq_true_eq]
    constructor
    · exact fun h => le_antisymm h.2 h.1
    · rintro rfl
      exact ⟨le_refl lon, le_refl lon⟩

/-- C4 witness: the characterization applied at concrete boxes — an
ordinary box, a date-line-crossing box, and a degenerate box. -/
theorem lonCond_characterization_witness :
    (lonCond 0 1 0 = true) ∧ (lonCond 1 0 2 = true) ∧ (lonCond 5 5 5 = true) :=
  ⟨(lonCond_characterization.1 0 1 0 (by norm_num)).mpr ⟨by norm_num, by norm_num⟩,
   (lonCond_characterization.2.1 1 0 2 (by norm_num)).mpr (Or.inl (by norm_num)),
   (lonCond_characterization.2.2.2.2.2 5 5).mpr rfl⟩

/-- A `(rank, name)`-sorted list stays sorted under pagination slicing. -/
lemma pairwise_slice {α : Type} {R : α → α → Prop} {l : List α}
    (h : l.Pairwise R) (O L : Nat) : ((l.drop O).take L).Pairwise R :=
  List.Pairwise.sublist ((List.take_sublist _ _).trans (List.drop_sublist _ _)) h

lemma sorted_insertionSort_rankName (l : List POI) :
    (List.insertionSort rankNameLe l).Pairwise rankNameLe :=
  List.sorted_insertionSort rankNameLe l

lemma sorted_radiusSurvivors (store : List POI) (bbox : BBox) (dist : POI → Rat)
    (radius : Rat) (categories : Option (List String)) (L O : Nat) :
    ((((radiusSurvivors store bbox dist radius categories).drop O).take L).map
      Prod.fst).Pairwise rankNameLe := by
  apply List.pairwise_map.mpr
  apply pairwise_slice
  exact List.sorted_insertionSort pairRel _

/-- C5: every search result list is sorted by rank ascending with name
ascending lexicographic as the tie-break: any `rows` list produced by
`findByRadius`, `findByBoundingBox` or `findByName` is pairwise ordered
by `rankNameLe` (a relation reading only `rank` and `name`, never the
distance — distance enters `findByRadius` only through the filter). -/
theorem search_results_sorted :
    (∀ (store : List POI) (latitude longitude : Rat) (bbox : BBox) (dist : POI → Rat)
        (radius : Rat) (categories : Option (List String)) (L O : Nat) (r : SearchResult),
        findByRadius store latitude longitude bbox dist radius categories L O = .ok r →
        r.rows.Pairwise rankNameLe)
    ∧ (∀ (store : List POI) (north south east west : Rat)
        (categories : Option (List String)) (L O : Nat) (r : SearchResult),
        findByBoundingBox store north south east west categories L O = .ok r →
        r.rows.Pairwise rankNameLe)
    ∧ (∀ (store : List POI) (q : String) (categories : Option (List String))
        (L O : Nat) (r : SearchResult),
        findByName store q categories L O = .ok r →
        r.rows.Pairwise rankNameLe) := by
  refine ⟨?_, ?_, ?_⟩
  · intro store latitude longitude bbox dist radius categories L O r h
    unfold findByRadius at h
    split at h
    · simp at h
    · split at h
      · simp at h
      · simp only [Except.ok.injEq] at h
        subst h
        exact sorted_radiusSurvivors store bbox dist radius categories L O
  · intro store north south east west categories L O r h
    unfold findByBoundingBox at h
    split at h
    · simp at h
    · split at h
      · simp at h
      · simp only [Except.ok.injEq] at h
        subst h
        exact pairwise_slice (sorted_insertionSort_rankName _) O L
  · intro store q categories L O r h
    unfold findByName at h
    split at h
    · simp at h
    · simp only [Except.ok.injEq] at h
      subst h
      exact pairwise_slice (sorted_insertionSort_rankName _) O L

/-- C5 witness: a two-POI store where the `(rank, name)` order reverses
the storage order; each of the three searches is applied at concrete
inputs and its rows come out sorted. -/
theorem search_results_sorted_witness :
    List.Pairwise rankNameLe
      [(⟨"b", 0, 0, "CAFE", 1, "Beta"⟩ : POI), ⟨"a", 0, 0, "CAFE", 2, "Alpha"⟩] :=
  search_results_sorted.1
    [⟨"a", 0, 0, "CAFE", 2, "Alpha"⟩, ⟨"b", 0, 0, "CAFE", 1, "Beta"⟩]
    0 0 ⟨1, -1, 1, -1⟩ (fun _ => 0) 1 none 10 0
    ⟨[⟨"b", 0, 0, "CAFE", 1, "Beta"⟩, ⟨"a", 0, 0, "CAFE", 2, "Alpha"⟩], 2⟩ (by decide)

/-- Concatenating the `[i*L, i*L + L)` slices over enough pages
reconstructs the whole list. -/
lemma flatten_chunks {α : Type} (L : Nat) :
    ∀ (n : Nat) (l : List α), l.length ≤ n * L →
      ((List.range n).map (fun i => (l.drop (i * L)).take L)).flatten = l := by
  intro n
  induction n with
  | zero =>
    intro l hl
    simp only [Nat.zero_mul, Nat.le_zero] at hl
    simp [List.eq_nil_of_length_eq_zero hl]
  | succ n ih =>
    intro l hl
    rw [List.range_succ_eq_map, List.map_cons, List.flatten_cons, List.map_map]
    have hmap : ∀ i ∈ List.range n,
        ((fun i => (l.drop (i * L)).take L) ∘ Nat.succ) i
          = (fun i => (((l.drop L).drop (i * L)).take L)) i := by
      intro i _
      simp only [Function.comp_apply]
      rw [List.drop_drop, Nat.succ_mul, Nat.add_comm]
    rw [List.map_congr_left hmap]
    rw [Nat.succ_mul] at hl
    have hlen : (l.drop L).length ≤ n * L := by
      rw [List.length_drop]
      omega
    rw [ih (l.drop L) hlen]
    simp

/-- C6: for valid inputs, `findByRadius` returns `count` equal to the size
of the surviving sorted set and `rows` equal to its `[O, O+L)` slice; an
offset past the end yields an empty row list, not an error; and for any
page size `L ≥ 1`, concatenating the pages at offsets `0, L, 2L, …`
reconstructs the full sorted result with each element exactly once. -/
theorem radius_pagination_contract :
    ∀ (store : List POI) (latitude longitude : Rat) (bbox : BBox) (dist : POI → Rat)
      (radius : Rat) (categories : Option (List String)) (L O : Nat),
      isValidCoordinate latitude longitude = true →
      ¬ radius < 0 → ¬ radius > 20 →
      (findByRadius store latitude longitude bbox dist radius categories L O
          = .ok ⟨(((radiusSurvivors store bbox dist radius categories).map Prod.fst).drop
                O).take L,
              (radiusSurvivors store bbox dist radius categories).length⟩)
      ∧ ((radiusSurvivors store bbox dist radius categories).length ≤ O →
          (((radiusSurvivors store bbox dist radius categories).map Prod.fst).drop O).take L
            = [])
      ∧ (0 < L →
          ((List.range
                (((radiusSurvivors store bbox dist radius categories).length + L - 1) / L)).map
              (fun i =>
                (((radiusSurvivors store bbox dist radius categories).map Prod.fst).drop
                    (i * L)).take L)).flatten
            = (radiusSurvivors store bbox dist radius categories).map Prod.fst) := by
  intro store latitude longitude bbox dist radius categories L O h1 h2 h3
  refine ⟨?_, ?_, ?_⟩
  · simp [findByRadius, h1, h2, h3]
  · intro hO
    have hO2 : ((radiusSurvivors store bbox dist radius categories).map Prod.fst).length ≤ O := by
      rw [List.length_map]
      exact hO
    simp [List.drop_eq_nil_of_le hO2]
  · intro hL
    apply flatten_chunks L
    rw [List.length_map]
    generalize (radiusSurvivors store bbox dist radius categories).length = len
    have hdm := Nat.div_add_mod (len + L - 1) L
    have hmod := Nat.mod_lt (len + L - 1) hL
    have key : len + (len + L - 1) % L ≤ L * ((len + L - 1) / L) + (len + L - 1) % L := by
      rw [hdm]
      omega
    have hfin := Nat.le_of_add_le_add_right key
    rw [Nat.mul_comm] at hfin
    exact hfin

/-- Store and box used in the pagination witness. -/
def wStore : List POI :=
  [⟨"a", 0, 0, "CAFE", 2, "Alpha"⟩, ⟨"b", 0, 0, "CAFE", 1, "Beta"⟩,
   ⟨"c", 0, 0, "CAFE", 1, "Gamma"⟩]

/-- Bounding box containing the witness store. -/
def wBox : BBox := ⟨1, -1, 1, -1⟩

/-- C6 witness: the contract applied at a three-POI store with page size
`2` and the out-of-range offset `4`. -/
theorem radius_pagination_contract_witness :
    (findByRadius wStore 0 0 wBox (fun _ => 0) 1 none 2 4
        = .ok ⟨(((radiusSurvivors wStore wBox (fun _ => 0) 1 none).map Prod.fst).drop 4).take 2,
            (radiusSurvivors wStore wBox (fun _ => 0) 1 none).length⟩)
    ∧ ((((radiusSurvivors wStore wBox (fun _ => 0) 1 none).map Prod.fst).drop 4).take 2 = [])
    ∧ (((List.range
            (((radiusSurvivors wStore wBox (fun _ => 0) 1 none).length + 2 - 1) / 2)).map
          (fun i =>
            (((radiusSurvivors wStore wBox (fun _ => 0) 1 none).map Prod.fst).drop
                (i * 2)).take 2)).flatten
        = (radiusSurvivors wStore wBox (fun _ => 0) 1 none).map Prod.fst) :=
  ⟨(radius_pagination_contract wStore 0 0 wBox (fun _ => 0) 1 none 2 4
      (by decide) (by norm_num) (by norm_num)).1,
   (radius_pagination_contract wStore 0 0 wBox (fun _ => 0) 1 none 2 4
      (by decide) (by norm_num) (by norm_num)).2.1 (by decide),
   (radius_pagination_contract wStore 0 0 wBox (fun _ => 0) 1 none 2 4
      (by decide) (by norm_num) (by norm_num)).2.2 (by norm_num)⟩

end Travelin
